import Mathlib

/-!
Shallow embedding of the phishing-heuristics core of `contentScript.js`
(`computeHeuristics`, `combineScores`, the link-flag decision of
`highlightSuspiciousLinks`), together with theorems checking the spec's
claims about that code.

Conventions of the embedding:
* The file `contentScript.js` declares `computeHeuristics` twice; under
  JavaScript function hoisting the later declaration (line 699) shadows the
  earlier one, so that version is the one embedded here.
* JavaScript strings are modelled by Lean `String` restricted to the
  ASCII fragment (`toLowerCase`/`toUpperCase`/`trim`/`split` are embedded
  by structurally recursive list functions defined below; every string
  constant in the source and every input used in a concrete theorem is
  ASCII apart from three literal non-ASCII detail strings, which are
  transcribed codepoint by codepoint).
* The numeric score is modelled by `Int`: every arithmetic operation the
  function performs on it (`+`, `Math.max(0, ·)`, `Math.min(70, ·)`) is
  integer-valued, so IEEE doubles behave exactly like integers here.
* `combineScores` receives arbitrary JavaScript values; these are modelled
  by `RemoteVal` (a number, or a non-number), numbers by `JSNum`
  (finite rational, NaN, +Infinity, -Infinity).  Finite doubles are
  modelled as exact rationals: the claims under test are about the
  arithmetic shape of the code, not about rounding error of binary floats.
* A thrown exception is modelled by `Option`: `none` is a throw that
  escapes `computeHeuristics` (the only reachable one is the
  `header.from.split('@')` access when `from` is absent).
-/

namespace AiPhishing

/-! ## JavaScript string primitives -/

/-- Prefix check (is `pat` a prefix of `hay`), used by `inclAux`. -/
def isPre (pat hay : List Char) : Bool :=
  match pat, hay with
  | [], _ => true
  | _ :: _, [] => false
  | p :: ps, h :: hs => p == h && isPre ps hs

/-- Substring search over char lists (JavaScript `String.prototype.includes`). -/
def inclAux (hay pat : List Char) : Bool :=
  match hay with
  | [] => pat.isEmpty
  | _ :: t => isPre pat hay || inclAux t pat

/-- JavaScript `hay.includes(pat)`. -/
def jsIncludes (hay pat : String) : Bool :=
  inclAux hay.data pat.data

/-- JavaScript `s.endsWith(pat)`. -/
def jsEndsWith (s pat : String) : Bool :=
  isPre pat.data.reverse s.data.reverse

/-- Split a char list on every occurrence of `sep`
(JavaScript `s.split(sep)` for a one-character separator). -/
def splitOnChar (sep : Char) : List Char → List (List Char)
  | [] => [[]]
  | c :: rest =>
    if c = sep then [] :: splitOnChar sep rest
    else
      match splitOnChar sep rest with
      | [] => [[c]]
      | h :: t => (c :: h) :: t

/-- JavaScript `s.split(sep)` for a one-character separator. -/
def jsSplit (sep : Char) (s : String) : List String :=
  (splitOnChar sep s.data).map String.mk

/-- Drop the empty chunks of a tail, keeping the final chunk even if empty
(worker for `splitNewlineRuns`). -/
def keepNonEmptyExceptLast : List (List Char) → List (List Char)
  | [] => []
  | [a] => [a]
  | a :: rest =>
    if a.isEmpty then keepNonEmptyExceptLast rest
    else a :: keepNonEmptyExceptLast rest

/-- JavaScript `body.split(/\n+/)`: split on maximal runs of newlines.
Splitting on every `'\n'` turns a run of `k` separators into `k - 1` empty
chunks between the surrounding chunks; the regex split produces none of
them, and an empty chunk can only arise from adjacent separators (or from
a separator at either end of the string, where JavaScript does keep the
empty chunk) — so dropping every empty chunk of the tail except a final
one reproduces `split(/\n+/)` exactly. -/
def splitNewlineRuns (s : String) : List String :=
  match splitOnChar '\n' s.data with
  | [] => []
  | a :: rest => (a :: keepNonEmptyExceptLast rest).map String.mk

/-- ASCII lowercasing of one character (the fragment of
`String.prototype.toLowerCase` exercised by this code). -/
def lowerChar (c : Char) : Char :=
  if 'A' ≤ c && c ≤ 'Z' then Char.ofNat (c.toNat + 32) else c

/-- ASCII uppercasing of one character. -/
def upperChar (c : Char) : Char :=
  if 'a' ≤ c && c ≤ 'z' then Char.ofNat (c.toNat - 32) else c

/-- JavaScript `s.toLowerCase()` (ASCII fragment). -/
def jsToLower (s : String) : String :=
  String.mk (s.data.map lowerChar)

/-- JavaScript `s.toUpperCase()` (ASCII fragment). -/
def jsToUpper (s : String) : String :=
  String.mk (s.data.map upperChar)

/-- The whitespace set of JavaScript `trim`/`\s` (ASCII part plus NBSP). -/
def isJsWhitespace (c : Char) : Bool :=
  c == ' ' || c == '\t' || c == '\n' || c == '\r' ||
    c == Char.ofNat 11 || c == Char.ofNat 12 || c == Char.ofNat 160

/-- Drop leading whitespace. -/
def dropWs : List Char → List Char
  | [] => []
  | c :: rest => if isJsWhitespace c then dropWs rest else c :: rest

/-- JavaScript `s.trim()`. -/
def jsTrim (s : String) : String :=
  String.mk (dropWs (dropWs s.data.reverse).reverse)

/-- Join strings with a separator (JavaScript `Array.prototype.join`). -/
def joinSep (sep : String) : List String → String
  | [] => ""
  | [a] => a
  | a :: rest => a ++ sep ++ joinSep sep rest

/-! ## JavaScript numbers and `combineScores` -/

/-- A JavaScript number: an exact finite value, NaN, or a signed infinity. -/
inductive JSNum where
  | fin (q : ℚ)
  | nan
  | posInf
  | negInf
deriving DecidableEq

/-- An arbitrary JavaScript value passed as the remote score: a number, or
anything whose `typeof` is not `'number'`. -/
inductive RemoteVal where
  | num (n : JSNum)
  | nonNumber
deriving DecidableEq

/-- IEEE-style multiplication on `JSNum` (exact on finite values). -/
def jsMul (a b : JSNum) : JSNum :=
  match a, b with
  | .nan, _ => .nan
  | _, .nan => .nan
  | .fin x, .fin y => .fin (x * y)
  | .posInf, .fin y => if y > 0 then .posInf else if y < 0 then .negInf else .nan
  | .negInf, .fin y => if y > 0 then .negInf else if y < 0 then .posInf else .nan
  | .fin x, .posInf => if x > 0 then .posInf else if x < 0 then .negInf else .nan
  | .fin x, .negInf => if x > 0 then .negInf else if x < 0 then .posInf else .nan
  | .posInf, .posInf => .posInf
  | .posInf, .negInf => .negInf
  | .negInf, .posInf => .negInf
  | .negInf, .negInf => .posInf

/-- IEEE-style addition on `JSNum` (exact on finite values). -/
def jsAdd (a b : JSNum) : JSNum :=
  match a, b with
  | .nan, _ => .nan
  | _, .nan => .nan
  | .fin x, .fin y => .fin (x + y)
  | .posInf, .negInf => .nan
  | .negInf, .posInf => .nan
  | .posInf, _ => .posInf
  | _, .posInf => .posInf
  | .negInf, _ => .negInf
  | _, .negInf => .negInf

/-- JavaScript `Math.round`: half-up rounding (`⌊x + 1/2⌋`) on finite values,
identity on NaN and the infinities. -/
def jsRound (a : JSNum) : JSNum :=
  match a with
  | .fin x => .fin (⌊x + 1/2⌋ : ℤ)
  | x => x

/-- The `combineScores(heuristics, llm)` function, `contentScript.js` line 1082:
`if (typeof llm !== 'number' || isNaN(llm)) return heuristics;`
`return Math.round((heuristics * 0.4) + (llm * 0.6));` -/
def combineScores (heuristics : JSNum) (llm : RemoteVal) : JSNum :=
  match llm with
  | .nonNumber => heuristics
  | .num n =>
    if n = .nan then heuristics
    else jsRound (jsAdd (jsMul heuristics (.fin (0.4 : ℚ))) (jsMul n (.fin (0.6 : ℚ))))

/-! ## A small ECMAScript regular-expression engine

The detectors use a fixed collection of regex literals.  The engine below
implements exactly the features those literals use: character classes,
`.`  (not dot-all), concatenation, prioritized alternation, greedy and lazy
`*`/`?` (with the ECMAScript rule that a quantifier iteration matching the
empty string terminates the loop), capturing groups, the `^`/`$` anchors
(none of the patterns uses the `m` flag), and `\b`.  Case-insensitivity
(`i` flag) is a parameter of the matcher; over the ASCII fragment,
ECMAScript canonicalization coincides with also trying the case-swapped
input character.  Backtracking is implemented in continuation-passing
style, structurally recursive on the pattern; quantifier loops recurse on
an iteration budget that the empty-match rule keeps from ever being
exhausted. -/

/-- One atom of a character class: a range or a single character. -/
inductive CC where
  | rng (lo hi : Char)
  | single (c : Char)
deriving DecidableEq

/-- Regular expressions (the fragment used by `contentScript.js`). -/
inductive RE where
  | eps
  | lit (c : Char)
  | cls (neg : Bool) (items : List CC)
  | dot
  | cat (a b : RE)
  | alt (a b : RE)
  | star (a : RE) (lazy : Bool)
  | opt (a : RE) (lazy : Bool)
  | grp (idx : Nat) (a : RE)
  | bos
  | eos
  | wb
deriving DecidableEq

/-- ASCII case swap, matching ECMAScript canonicalization on ASCII. -/
def swapCase (c : Char) : Char :=
  if c.isUpper then c.toLower else if c.isLower then c.toUpper else c

/-- Does class atom `it` match character `c` (case-sensitively)? -/
def ccMatch (it : CC) (c : Char) : Bool :=
  match it with
  | .rng lo hi => lo ≤ c && c ≤ hi
  | .single a => a == c

/-- Character-class membership, honouring negation and the `i` flag. -/
def clsMatch (ci : Bool) (neg : Bool) (items : List CC) (c : Char) : Bool :=
  let hit := items.any (fun it => ccMatch it c || (ci && ccMatch it (swapCase c)))
  if neg then !hit else hit

/-- Single-character match for a literal, honouring the `i` flag. -/
def litMatch (ci : Bool) (p c : Char) : Bool :=
  p == c || (ci && p == swapCase c)

/-- ECMAScript word character (`\w`), as used by `\b`. -/
def isWordChar (c : Char) : Bool :=
  ('a' ≤ c && c ≤ 'z') || ('A' ≤ c && c ≤ 'Z') || ('0' ≤ c && c ≤ '9') || c == '_'

/-- Is position `i` of `s` a `\b` word boundary? -/
def isWordBoundary (s : Array Char) (i : Nat) : Bool :=
  let before := match s[i-1]? with
    | some c => i ≠ 0 && isWordChar c
    | none => false
  let after := match s[i]? with
    | some c => isWordChar c
    | none => false
  before != after

/-- Captured group spans, most recent write first. -/
def Caps : Type := List (Nat × Nat × Nat)

/-- Result of a match attempt: end position and captures. -/
def MRes : Type := Nat × Caps

/-- Iterate a quantifier body.  `matchBody` is the matcher of the body,
`budget` bounds the number of iterations: since an iteration that does not
advance the position fails (the ECMAScript empty-match rule, the
`j == i` guard), a loop starting at position `i` can run at most
`s.size + 1 - i` times, which is what callers pass.  Greedy loops try one
more iteration first, lazy loops try the continuation first. -/
def starLoop (matchBody : Nat → Caps → (Nat → Caps → Option MRes) → Option MRes)
    (lz : Bool) : Nat → Nat → Caps → (Nat → Caps → Option MRes) → Option MRes
  | 0, _, _, _ => none
  | budget + 1, i, caps, k =>
    let cont := fun j cp =>
      if j == i then none else starLoop matchBody lz budget j cp k
    if lz then (k i caps) <|> (matchBody i caps cont)
    else (matchBody i caps cont) <|> (k i caps)

/-- The backtracking matcher.  `reM ci s re i caps k` tries to match `re`
at position `i` of `s` and calls the continuation `k` with the end
position; alternation prefers its left branch, greedy quantifiers prefer
longer matches, lazy ones shorter, exactly as in ECMAScript. -/
def reM (ci : Bool) (s : Array Char) :
    RE → Nat → Caps → (Nat → Caps → Option MRes) → Option MRes
  | .eps, i, caps, k => k i caps
  | .lit c, i, caps, k =>
    match s[i]? with
    | some d => if litMatch ci c d then k (i + 1) caps else none
    | none => none
  | .cls neg items, i, caps, k =>
    match s[i]? with
    | some d => if clsMatch ci neg items d then k (i + 1) caps else none
    | none => none
  | .dot, i, caps, k =>
    match s[i]? with
    | some d => if d == '\n' || d == '\r' then none else k (i + 1) caps
    | none => none
  | .cat a b, i, caps, k =>
    reM ci s a i caps (fun j cp => reM ci s b j cp k)
  | .alt a b, i, caps, k =>
    (reM ci s a i caps k) <|> (reM ci s b i caps k)
  | .star a lz, i, caps, k =>
    starLoop (reM ci s a) lz (s.size + 1 - i) i caps k
  | .opt a lz, i, caps, k =>
    if lz then (k i caps) <|> (reM ci s a i caps k)
    else (reM ci s a i caps k) <|> (k i caps)
  | .grp idx a, i, caps, k =>
    reM ci s a i caps (fun j cp => k j ((idx, i, j) :: cp))
  | .bos, i, caps, k => if i == 0 then k i caps else none
  | .eos, i, caps, k => if i == s.size then k i caps else none
  | .wb, i, caps, k => if isWordBoundary s i then k i caps else none

/-- Find the leftmost match of `re` in `s` starting at or after `start`
(ECMAScript `RegExp.prototype.exec` with `lastIndex = start`).  Returns
(match start, match end, captures). -/
def reSearchAux (ci : Bool) (s : Array Char) (re : RE) :
    Nat → Nat → Option (Nat × Nat × Caps)
  | _, 0 => none
  | i, remaining + 1 =>
    match reM ci s re i [] (fun j cp => some (j, cp)) with
    | some (j, cp) => some (i, j, cp)
    | none => reSearchAux ci s re (i + 1) remaining

/-- Leftmost match of `re` in `s` from position `start`. -/
def reSearch (ci : Bool) (s : Array Char) (re : RE) (start : Nat) :
    Option (Nat × Nat × Caps) :=
  reSearchAux ci s re start (s.size + 1 - start)

/-- ECMAScript `re.test(str)` (non-global use). -/
def reTest (ci : Bool) (re : RE) (str : String) : Bool :=
  (reSearch ci str.data.toArray re 0).isSome

/-- All matches of a global regex, in the order `while (re.exec(body))`
produces them: after a match, scanning resumes at its end.  (None of the
global patterns in the source can match the empty string; the `+ 1`
advance on an empty match only guarantees totality.) -/
def execAllAux (ci : Bool) (s : Array Char) (re : RE) :
    Nat → Nat → List (Nat × Nat × Caps)
  | _, 0 => []
  | pos, fuel + 1 =>
    match reSearch ci s re pos with
    | none => []
    | some (st, en, cp) =>
      (st, en, cp) :: execAllAux ci s re (if st < en then en else en + 1) fuel

/-- All global matches of `re` in `s`. -/
def execAll (ci : Bool) (re : RE) (str : String) : List (Nat × Nat × Caps) :=
  execAllAux ci str.data.toArray re 0 (str.data.length + 1)

/-- The substring of `s` spanning positions `[a, b)`. -/
def sliceStr (s : Array Char) (a b : Nat) : String :=
  String.mk ((s.toList.drop a).take (b - a))

/-- Latest value of capture group `n`. -/
def capGet (cp : Caps) (n : Nat) : Option (Nat × Nat) :=
  (cp.find? (fun e => e.1 == n)).map (fun e => e.2)

/-- Captured text of group `n` of a match, or `""` (groups read by the
source are always set when their pattern matches). -/
def capStr (s : Array Char) (cp : Caps) (n : Nat) : String :=
  match capGet cp n with
  | some (a, b) => sliceStr s a b
  | none => ""

/-! ### Pattern-building helpers -/

/-- Concatenation of a list of regexes. -/
def catL (l : List RE) : RE :=
  match l with
  | [] => .eps
  | [r] => r
  | r :: rest => .cat r (catL rest)

/-- Prioritized alternation of a list of regexes (left first, as in
ECMAScript `a|b|c`). -/
def altL (l : List RE) : RE :=
  match l with
  | [] => .eps
  | [r] => r
  | r :: rest => .alt r (altL rest)

/-- A literal string as a regex. -/
def strRE (s : String) : RE :=
  catL (s.data.map RE.lit)

/-- The quantifier `r+` (greedy). -/
def plusRE (r : RE) : RE := .cat r (.star r false)

/-- The quantifier `r{2,}` (greedy). -/
def rep2RE (r : RE) : RE := .cat r (.cat r (.star r false))

/-- The quantifier `r{1,3}` (greedy: tries 3, then 2, then 1 occurrences). -/
def rep13RE (r : RE) : RE := .cat r (.opt (.cat r (.opt r false)) false)

/-- The `\s` class atoms (ASCII whitespace plus NBSP; enough for the
inputs considered here). -/
def wsItems : List CC :=
  [.single ' ', .single '\t', .single '\n', .single '\r',
   .single (Char.ofNat 11), .single (Char.ofNat 12), .single (Char.ofNat 160)]

/-- The class `\s`. -/
def wsRE : RE := .cls false wsItems

/-- The class `\d`. -/
def digitRE : RE := .cls false [.rng '0' '9']

/-! ### The regex literals of `computeHeuristics`, transcribed -/

/-- The class `[a-zA-Z0-9.-]`. -/
def domCls : RE :=
  .cls false [.rng 'a' 'z', .rng 'A' 'Z', .rng '0' '9', .single '.', .single '-']

/-- The fragment `[a-zA-Z]{2,}`. -/
def alpha2 : RE := rep2RE (.cls false [.rng 'a' 'z', .rng 'A' 'Z'])

/-- The class `[^\s<]`. -/
def notSpaceLt : RE := .cls true (wsItems ++ [.single '<'])

/-- The fragment `https?:\/\/`. -/
def httpRE : RE := catL [strRE "http", .opt (.lit 's') false, strRE "://"]

/-- Pattern `deceptiveLinkPatterns[0]`:
`/\b([a-zA-Z0-9.-]+\.[a-zA-Z]{2,}[^\s<]*?)\b[^<]*<[^>]*href=["']https?:\/\/([^"'>\/]+)/gi`. -/
def deceptivePatA : RE :=
  catL [.wb,
        .grp 1 (catL [plusRE domCls, .lit '.', alpha2, .star notSpaceLt true]),
        .wb,
        .star (.cls true [.single '<']) false,
        .lit '<',
        .star (.cls true [.single '>']) false,
        strRE "href=",
        .cls false [.single '"', .single '\''],
        httpRE,
        .grp 2 (plusRE (.cls true [.single '"', .single '\'', .single '>', .single '/']))]

/-- Pattern `deceptiveLinkPatterns[1]`:
`/(https?:\/\/[a-zA-Z0-9.-]+\.[a-zA-Z]{2,}[^\s<]*)[^<]*<[^>]*href=["']https?:\/\/([^"'>\/]+)/gi`.
(`deceptiveLinkPatterns[2]` exists in the source but is dead: the loop
iterates over `.slice(0, 2)` only.) -/
def deceptivePatB : RE :=
  catL [.grp 1 (catL [httpRE, plusRE domCls, .lit '.', alpha2, .star notSpaceLt false]),
        .star (.cls true [.single '<']) false,
        .lit '<',
        .star (.cls true [.single '>']) false,
        strRE "href=",
        .cls false [.single '"', .single '\''],
        httpRE,
        .grp 2 (plusRE (.cls true [.single '"', .single '\'', .single '>', .single '/']))]

/-- Pattern `suspiciousDisplayPatterns[0]`: `/\bwww\.[a-zA-Z0-9.-]+\.[a-zA-Z]{2,}\/[^\s<]*/gi`. -/
def displayPat1 : RE :=
  catL [.wb, strRE "www.", plusRE domCls, .lit '.', alpha2, .lit '/', .star notSpaceLt false]

/-- Pattern `suspiciousDisplayPatterns[1]`: `/\b[a-zA-Z0-9.-]+\.[a-zA-Z]{2,}\/[a-zA-Z0-9._-]+/gi`. -/
def displayPat2 : RE :=
  catL [.wb, plusRE domCls, .lit '.', alpha2, .lit '/',
        plusRE (.cls false [.rng 'a' 'z', .rng 'A' 'Z', .rng '0' '9',
                            .single '.', .single '_', .single '-'])]

/-- Pattern `markdownLinkRegex`:
`/\[([^\]]*\b[a-zA-Z0-9.-]+\.[a-zA-Z]{2,}[^\]]*)\]\(https?:\/\/([^)>\/]+)[^)]*\)/gi`. -/
def markdownPat : RE :=
  catL [.lit '[',
        .grp 1 (catL [.star (.cls true [.single ']']) false, .wb,
                      plusRE domCls, .lit '.', alpha2,
                      .star (.cls true [.single ']']) false]),
        .lit ']', .lit '(',
        httpRE,
        .grp 2 (plusRE (.cls true [.single ')', .single '>', .single '/'])),
        .star (.cls true [.single ')']) false,
        .lit ')']

/-- Pattern `/\b([a-zA-Z0-9.-]+\.[a-zA-Z]{2,})\b/` (applied to markdown display text). -/
def domainInTextPat : RE :=
  catL [.wb, .grp 1 (catL [plusRE domCls, .lit '.', alpha2]), .wb]

/-- Pattern `genericGreetingPatterns[0]` (the long salutation pattern). -/
def greetPat1 : RE :=
  catL [.bos, .star wsRE false,
        .grp 1 (altL
          [strRE "dear", strRE "hello", strRE "hi", strRE "greetings",
           catL [strRE "good", plusRE wsRE,
                 .grp 2 (altL [strRE "morning", strRE "afternoon", strRE "evening"])],
           strRE "attention", strRE "to whom it may concern", strRE "valued customer",
           catL [strRE "dear ",
                 .grp 3 (altL
                   [strRE "customer", strRE "user", strRE "sir", strRE "madam",
                    strRE "sir/madam", strRE "account holder", strRE "client",
                    strRE "member", strRE "valued member", strRE "valued client",
                    strRE "account team", strRE "support team", strRE "it team",
                    strRE "security team", strRE "billing department",
                    strRE "payroll", strRE "hr", strRE "human resources",
                    strRE "administrator"])]]),
        .opt (.grp 4 (catL [plusRE wsRE,
                            plusRE (.cls true (wsItems ++ [.single ',']))])) false,
        .star (.cls false (CC.single ',' :: wsItems)) false,
        .eos]

/-- Pattern `genericGreetingPatterns[1]`:
`/^\s*(dear|hello|hi)\s+[a-z0-9._%+-]+@[a-z0-9.-]+\.[a-z]{2,}\s*,?\s*$/i`. -/
def greetPat2 : RE :=
  catL [.bos, .star wsRE false,
        .grp 1 (altL [strRE "dear", strRE "hello", strRE "hi"]),
        plusRE wsRE,
        plusRE (.cls false [.rng 'a' 'z', .rng '0' '9', .single '.', .single '_',
                            .single '%', .single '+', .single '-']),
        .lit '@',
        plusRE (.cls false [.rng 'a' 'z', .rng '0' '9', .single '.', .single '-']),
        .lit '.',
        rep2RE (.cls false [.rng 'a' 'z']),
        .star wsRE false, .opt (.lit ',') false, .star wsRE false,
        .eos]

/-- Pattern `genericGreetingPatterns[2]`: `/^\s*(dear|hello|hi)\s+[a-z]+\s*[0-9]+/i`. -/
def greetPat3 : RE :=
  catL [.bos, .star wsRE false,
        .grp 1 (altL [strRE "dear", strRE "hello", strRE "hi"]),
        plusRE wsRE,
        plusRE (.cls false [.rng 'a' 'z']),
        .star wsRE false,
        plusRE digitRE]

/-- Pattern `genericGreetingPatterns[3]`:
`/^\s*(dear|hello|hi)\s+[a-z]+\s*(department|team|support|helpdesk)/i`. -/
def greetPat4 : RE :=
  catL [.bos, .star wsRE false,
        .grp 1 (altL [strRE "dear", strRE "hello", strRE "hi"]),
        plusRE wsRE,
        plusRE (.cls false [.rng 'a' 'z']),
        .star wsRE false,
        .grp 2 (altL [strRE "department", strRE "team", strRE "support", strRE "helpdesk"])]

/-- The four greeting patterns, in source order (all carry the `i` flag). -/
def genericGreetingPatterns : List RE := [greetPat1, greetPat2, greetPat3, greetPat4]

/-- The list `suspiciousDomainPatterns`, in source order, each with its `i` flag
(only the IP-address pattern lacks the flag). -/
def suspiciousDomainPatterns : List (Bool × RE) :=
  [(true, catL [.bos, plusRE (.cls false [.rng 'a' 'f', .rng '0' '9']), .lit '.',
                .grp 1 (altL [strRE "com", strRE "net", strRE "org"]), .eos]),
   (false, catL [.bos, rep13RE digitRE, .lit '.', rep13RE digitRE, .lit '.',
                 rep13RE digitRE, .lit '.', rep13RE digitRE, .eos]),
   (true, catL [.bos, strRE "mail", .star digitRE false, .lit '.']),
   (true, catL [.bos, strRE "smtp", .star digitRE false, .lit '.']),
   (true, catL [.bos, strRE "no", .opt (.cls false [.single '-', .single '_']) false,
                strRE "reply", .wb]),
   (true, catL [.bos, strRE "notification"]),
   (true, catL [.bos, strRE "alert"]),
   (true, catL [.bos, strRE "security"]),
   (true, catL [.bos, strRE "update"]),
   (true, catL [.bos, strRE "verify"]),
   (true, catL [.bos, strRE "account"]),
   (true, catL [.bos, strRE "service"]),
   (true, catL [.bos, strRE "support"]),
   (true, catL [.bos, strRE "billing"]),
   (true, catL [.bos, strRE "payment"]),
   (true, catL [.bos, strRE "corp", .opt (.cls false [.single '-', .single '_']) false,
                strRE "internal"])]

/-- Pattern `/https?:\/\/(?:www\.)?([^\/'\"\s]+)/gi` (sender/link mismatch detector). -/
def mismatchDomainPat : RE :=
  catL [httpRE, .opt (strRE "www.") false,
        .grp 1 (plusRE (.cls true ([.single '/', .single '\'', .single '"'] ++ wsItems)))]

/-! ## Data model -/

/-- One authentication verdict (`{ status, details }`; only `status` is read). -/
structure AuthVerdict where
  status : String
deriving DecidableEq

/-- The `header.authentication` object. -/
structure Authentication where
  dkim : Option AuthVerdict
  spf : Option AuthVerdict
  dmarc : Option AuthVerdict
deriving DecidableEq

/-- The email header as consumed by `computeHeuristics`.  `from` is absent
when the caller found no sender element (`header = {}` plus conditional
assignment in `analyseMessage`); `authentication` is absent when no
verdict object was attached. -/
structure EmailHeader where
  «from» : Option String
  authentication : Option Authentication
deriving DecidableEq

/-- The record `\x7b score, details, suspiciousElements \x7d` returned by `computeHeuristics`. -/
structure HeuristicResult where
  score : Int
  details : List String
  suspiciousElements : List String
deriving DecidableEq

/-! ## Keyword tables (transcribed from `contentScript.js` lines 706-754) -/

/-- The static suspicious-domain list. -/
def suspiciousDomains : List String :=
  ["paypal.com.security.login.com",
   "amazon.account.security.com",
   "microsoft-office.com",
   "appleid.apple.com.security.check.com",
   "irs.gov.tax.refund.com",
   "bankofamerica.com.login.verify.com",
   "wellsfargo.security.verify.com",
   "chase.com.security.alert.com",
   "facebook.password.reset.com",
   "gmail.login.verify.com",
   "outlook.login.verify.com",
   "linkedin.security.verify.com",
   "dropbox.login.verify.com",
   "icloud.verify.account.com",
   "netflix.billing.verify.com"]

/-- The urgent-keyword list. -/
def urgentKeywords : List String :=
  ["urgent", "immediate", "asap", "expires", "deadline", "time sensitive",
   "act now", "limited time", "expires today", "final notice", "last chance",
   "needs your attention", "requires immediate", "must be completed",
   "avoid losing", "will result in", "by thursday", "by friday", "by monday",
   "within 24 hours", "within 48 hours", "before", "review this document by"]

/-- The action-keyword list. -/
def actionKeywords : List String :=
  ["verify", "confirm", "update", "validate", "activate", "click here",
   "click below", "click link", "download", "open attachment", "view document",
   "view it now", "click the", "access your", "review this", "complete this",
   "take action", "respond immediately", "sign in", "log in", "login now"]

/-- The security-keyword list. -/
def securityKeywords : List String :=
  ["password", "account", "login", "security", "suspended", "locked",
   "compromised", "unauthorized", "breach", "violation", "alert",
   "policy document", "security warning", "access to your accounts",
   "losing access", "account closure", "account suspension"]

/-- The financial-keyword list. -/
def financialKeywords : List String :=
  ["bank", "payment", "invoice", "refund", "credit card", "wire transfer",
   "tax", "irs", "paypal", "amazon", "apple", "microsoft", "google",
   "accounts", "billing", "financial"]

/-- The brand domains of the deceptive-display check. -/
def legitimateDomains : List String :=
  ["joby.aero", "paypal.com", "amazon.com", "microsoft.com", "google.com", "apple.com"]

/-! ## Detector sections

`computeHeuristics` is one long function; each `let`-block below is the
literal transcription of one contiguous region of it, in source order. -/

/-- Number of urgent-keyword hits on the lowercased body. -/
def urgentHitsOf (lowerBody : String) : Nat :=
  (urgentKeywords.filter (fun kw => jsIncludes lowerBody kw)).length

/-- Urgent-category contribution: `Math.min(15, urgentHits * 8)` when any hit. -/
def urgentScore (lowerBody : String) : Int :=
  if urgentHitsOf lowerBody > 0 then min 15 ((urgentHitsOf lowerBody : Int) * 8) else 0

/-- Keyword-category scoring plus the two combination bonuses
(lines 756-798). -/
def keywordSection (lowerBody : String) : Int × List String :=
  let urgentHits := urgentHitsOf lowerBody
  let actionHits := (actionKeywords.filter (fun kw => jsIncludes lowerBody kw)).length
  let securityHits := (securityKeywords.filter (fun kw => jsIncludes lowerBody kw)).length
  let financialHits := (financialKeywords.filter (fun kw => jsIncludes lowerBody kw)).length
  let p1 : Int × List String :=
    if urgentHits > 0 then
      (urgentScore lowerBody,
       ["Contains " ++ toString urgentHits ++ " urgent keyword" ++
        (if urgentHits > 1 then "s" else "")])
    else (0, [])
  let p2 : Int × List String :=
    if actionHits > 0 then
      (min 12 ((actionHits : Int) * 6),
       ["Contains " ++ toString actionHits ++ " action keyword" ++
        (if actionHits > 1 then "s" else "")])
    else (0, [])
  let p3 : Int × List String :=
    if securityHits > 0 then
      (min 10 ((securityHits : Int) * 5),
       ["Contains " ++ toString securityHits ++ " security keyword" ++
        (if securityHits > 1 then "s" else "")])
    else (0, [])
  let p4 : Int × List String :=
    if financialHits > 0 then
      (min 8 ((financialHits : Int) * 4),
       ["Contains " ++ toString financialHits ++ " financial keyword" ++
        (if financialHits > 1 then "s" else "")])
    else (0, [])
  let p5 : Int × List String :=
    if urgentHits > 0 && actionHits > 0 then
      (10, ["Dangerous combination: urgent language + action request"])
    else (0, [])
  let p6 : Int × List String :=
    if securityHits > 0 && actionHits > 0 then
      (8, ["Suspicious combination: security alert + action request"])
    else (0, [])
  (p1.1 + p2.1 + p3.1 + p4.1 + p5.1 + p6.1, p1.2 ++ p2.2 ++ p3.2 ++ p4.2 ++ p5.2 ++ p6.2)

/-- Number of `https?://` markers in the body, case-insensitively
(`body.match(/https?:\/\//gi).length`).  Counting every starting position
equals the global-regex count: no proper suffix of `http://` or
`https://` begins another such marker, so matches never overlap. -/
def countLinkPositions : List Char → Nat
  | [] => 0
  | l@(_ :: t) =>
    (if isPre "http://".data l || isPre "https://".data l then 1 else 0) +
      countLinkPositions t

/-- Link-count scoring (lines 800-806). -/
def linkCountSection (body : String) : Int × List String :=
  let linkCount := countLinkPositions (jsToLower body).data
  if linkCount > 5 then
    (min 20 (((linkCount : Int) - 5) * 2),
     ["Contains many links (" ++ toString linkCount ++ ")"])
  else (0, [])

/-- JavaScript `domain.replace(/^www\./i, '')`. -/
def stripWwwCI (s : String) : String :=
  if isPre "www.".data (jsToLower s).data then String.mk (s.data.drop 4) else s

/-- JavaScript `s.replace(/^https?:\/\//i, '')`. -/
def stripHttpCI (s : String) : String :=
  if isPre "https://".data (jsToLower s).data then String.mk (s.data.drop 8)
  else if isPre "http://".data (jsToLower s).data then String.mk (s.data.drop 7)
  else s

/-- The `getBaseDomain` helper of the HTML-style check (line 821): strip a
leading `www.`, split on `.`, and keep the last two labels; with fewer
than two labels the original argument is returned. -/
def getBaseDomainA (domain : String) : String :=
  let parts := jsSplit '.' (stripWwwCI domain)
  if 2 ≤ parts.length then
    joinSep "." (parts.drop (parts.length - 2))
  else domain

/-- The `getBaseDomain` helper of the markdown check (line 877): same but
without the `www.` strip. -/
def getBaseDomainB (domain : String) : String :=
  let parts := jsSplit '.' domain
  if 2 ≤ parts.length then
    joinSep "." (parts.drop (parts.length - 2))
  else domain

/-- HTML-style deceptive-link entries (lines 827-840): all global matches
of the first two `deceptiveLinkPatterns`, kept when the display and actual
base domains differ. -/
def deceptiveEntriesHtml (body : String) : List (String × String) :=
  let arr := body.data.toArray
  [deceptivePatA, deceptivePatB].flatMap (fun pat =>
    (execAll true pat body).filterMap (fun m =>
      let displayDomain := stripWwwCI (stripHttpCI (capStr arr m.2.2 1))
      let actualDomain := capStr arr m.2.2 2
      if getBaseDomainA (jsToLower displayDomain) ≠ getBaseDomainA (jsToLower actualDomain) then
        some (displayDomain, actualDomain)
      else none))

/-- Bare display-text entries (lines 849-864): matches of the two
`suspiciousDisplayPatterns` whose leading domain fuzzily contains a known
brand domain; the sentinel string stands in for the actual target. -/
def deceptiveEntriesDisplay (body : String) : List (String × String) :=
  let arr := body.data.toArray
  [displayPat1, displayPat2].flatMap (fun pat =>
    (execAll true pat body).filterMap (fun m =>
      let displayText := sliceStr arr m.1 m.2.1
      let domain := stripWwwCI ((jsSplit '/' displayText).headI)
      if legitimateDomains.any (fun legit => jsIncludes (jsToLower domain) (jsToLower legit)) then
        some (displayText, "potentially deceptive link pattern")
      else none))

/-- Markdown-style deceptive-link entries (lines 867-889). -/
def deceptiveEntriesMarkdown (body : String) : List (String × String) :=
  let arr := body.data.toArray
  (execAll true markdownPat body).filterMap (fun m =>
    let displayText := capStr arr m.2.2 1
    let actualDomain := capStr arr m.2.2 2
    match reSearch false displayText.data.toArray domainInTextPat 0 with
    | some (_, _, cp) =>
      let displayDomain := capStr displayText.data.toArray cp 1
      if getBaseDomainB (jsToLower displayDomain) ≠ getBaseDomainB (jsToLower actualDomain) then
        some (displayDomain, actualDomain)
      else none
    | none => none)

/-- All deceptive-link entries, in push order. -/
def deceptiveLinks (body : String) : List (String × String) :=
  deceptiveEntriesHtml body ++ deceptiveEntriesDisplay body ++ deceptiveEntriesMarkdown body

/-- Deceptive-link scoring (lines 892-898).  The two non-ASCII characters
of the finding text are transcribed exactly as they appear in the source
file (`â†’` and `â‰ `). -/
def deceptiveSection (body : String) : Int × List String × List String :=
  let links := deceptiveLinks body
  if links.length > 0 then
    let linkDescriptions :=
      (links.map (fun l => "\"" ++ l.1 ++ "\" â†’ " ++ l.2)).take 3
    (min 25 ((links.length : Int) * 15),
     ["Deceptive links detected (display text â‰  actual URL): " ++
      joinSep ", " linkDescriptions ++
      (if links.length > 3 then " and " ++ toString (links.length - 3) ++ " more" else "")],
     links.map (fun l => l.2))
  else (0, [], [])

/-- First `n` characters of `s` (`s.substring(0, n)` on ASCII). -/
def takeChars (n : Nat) (s : String) : String :=
  String.mk (s.data.take n)

/-- Generic-greeting scoring (lines 900-925). -/
def greetingSection (body : String) : Int × List String :=
  let emailBodyLower := jsToLower body
  let bodyLines := jsSplit '\n' emailBodyLower
  let firstLine := jsTrim bodyLines.headI
  let isGenericGreeting := genericGreetingPatterns.any (fun p => reTest true p firstLine)
  let secondLineGreeting :=
    if !isGenericGreeting && bodyLines.length > 1 then
      genericGreetingPatterns.any (fun p => reTest true p (jsTrim ((bodyLines.get? 1).getD "")))
    else false
  if isGenericGreeting || secondLineGreeting then
    let detectedGreeting :=
      if isGenericGreeting then firstLine else jsTrim ((bodyLines.get? 1).getD "")
    (10, ["Generic/impersonal greeting detected: \"" ++ takeChars 30 detectedGreeting ++
          (if detectedGreeting.length > 30 then "..." else "") ++ "\""])
  else (0, [])

/-- JavaScript `header.from.split('@')[1] || ''`. -/
def senderDomainOf (fromS : String) : String :=
  ((jsSplit '@' fromS).get? 1).getD ""

/-- Sender-domain scoring (lines 927-960). -/
def senderSection (senderDomain : String) : Int × List String :=
  let isSuspiciousDomain :=
    suspiciousDomainPatterns.any (fun p =>
      reTest p.1 p.2 senderDomain ||
        (jsSplit '.' senderDomain).any (fun part => part.length > 30))
  if isSuspiciousDomain then
    (15, ["Suspicious sender domain pattern: " ++ senderDomain])
  else if suspiciousDomains.any (fun domain => jsIncludes senderDomain domain) then
    (10, ["Suspicious sender domain: " ++ senderDomain])
  else (0, [])

/-- Sender/link domain-mismatch scoring (lines 962-984). -/
def mismatchSection (fromS : String) (lowerBody : String) : Int × List String × List String :=
  if fromS ≠ "" && jsIncludes fromS "@" then
    let domain := jsToLower (((jsSplit '@' fromS).get? 1).getD "")
    let arr := lowerBody.data.toArray
    let domainsInBody := (execAll true mismatchDomainPat lowerBody).map (fun m => capStr arr m.2.2 1)
    let uniqueDomains := domainsInBody.eraseDups
    let mismatches := uniqueDomains.filter (fun d => !(jsEndsWith d domain))
    if mismatches.length > 0 then
      (min 25 ((mismatches.length : Int) * 5),
       ["Links point to domains that differ from sender (" ++
        joinSep ", " mismatches ++ ")"],
       mismatches)
    else (0, [], [])
  else (0, [], [])

/-- Exclamation-mark and all-caps scoring (lines 986-1002).  The non-ASCII
run in the all-caps finding is transcribed exactly from the source file. -/
def punctuationSection (body : String) : Int × List String :=
  let exclamations := body.data.count '!'
  let e : Int × List String :=
    if exclamations > 3 then ((5 : Int), ["Contains many exclamation marks"]) else (0, [])
  let bodyLines := splitNewlineRuns body
  let shoutCount :=
    (bodyLines.filter (fun line =>
      jsTrim line ≠ "" && line == jsToUpper line && line.length > 10)).length
  let sh : Int × List String :=
    if shoutCount > 0 then ((5 : Int), ["Contains allâ€‘caps sentences"]) else (0, [])
  (e.1 + sh.1, e.2 ++ sh.2)

/-- One protocol of the authentication block.  The three protocol blocks
of the source (lines 1010-1039) are identical up to the protocol name,
the failure weight (dkim 15, spf 12, dmarc 18) and the pass discount
(dkim 2, spf 2, dmarc 3); `authStep` is that common block, threading the
(score, failure counter, authDetails) state. -/
def authStep (v : Option AuthVerdict) (failW passD : Int) (protoName : String)
    (st : Int × Nat × List String) : Int × Nat × List String :=
  match v with
  | some a =>
    if a.status == "fail" then
      (st.1 + failW, st.2.1 + 1, st.2.2 ++ [protoName ++ " authentication failed"])
    else if a.status == "pass" then
      (max 0 (st.1 - passD), st.2.1, st.2.2 ++ [protoName ++ " authentication passed"])
    else st
  | none => st

/-- The tail of the authentication block (lines 1041-1056): the
multiple-failures bonus and finding, then the per-protocol `authDetails`,
then the all-failed bonus and finding — in exactly that push order. -/
def authFinish (st : Int × Nat × List String) : Int × List String :=
  let score4 := if st.2.1 ≥ 2 then st.1 + 10 else st.1
  let pushed1 : List String :=
    if st.2.1 ≥ 2 then
      ["Multiple authentication failures (" ++ toString st.2.1 ++ ")"]
    else []
  let pushed2 := pushed1 ++ (if st.2.2.length > 0 then st.2.2 else [])
  if st.2.1 ≥ 3 then
    (score4 + 15,
     pushed2 ++ ["All email authentication methods failed - high phishing risk"])
  else (score4, pushed2)

/-- Authentication-result scoring (lines 1004-1057), applied to the score
accumulated so far.  Returns the new score and the findings this block
appends. -/
def authBlock (auth : Authentication) (score0 : Int) : Int × List String :=
  authFinish
    (authStep auth.dmarc 18 3 "DMARC"
      (authStep auth.spf 12 2 "SPF"
        (authStep auth.dkim 15 2 "DKIM" (score0, 0, []))))

/-- The embedded `computeHeuristics` (second declaration, line 699; under
JavaScript hoisting it shadows the first).  `none` models the `TypeError`
thrown at line 928 (`header.from.split('@')`) when `from` is absent;
every other path returns a result. -/
def computeHeuristics (body : String) (header : EmailHeader) : Option HeuristicResult :=
  let lowerBody := jsToLower body
  let kw := keywordSection lowerBody
  let lc := linkCountSection body
  let dl := deceptiveSection body
  let gr := greetingSection body
  match header.«from» with
  | none => none
  | some fromS =>
    let senderDomain := senderDomainOf fromS
    let sd := senderSection senderDomain
    let mm := mismatchSection fromS lowerBody
    let pu := punctuationSection body
    let preAuth := kw.1 + lc.1 + dl.1 + gr.1 + sd.1 + mm.1 + pu.1
    let finScore : Int × List String :=
      match header.authentication with
      | some auth => authBlock auth preAuth
      | none => (preAuth, [])
    some { score := min 70 finScore.1,
           details := kw.2 ++ lc.2 ++ dl.2.1 ++ gr.2 ++ sd.2 ++ mm.2.1 ++ pu.2 ++ finScore.2,
           suspiciousElements := dl.2.2 ++ mm.2.2 }

/-- The per-link flag decision of `highlightSuspiciousLinks`
(lines 1696-1719): `linkHost` is the already-parsed lowercase host of the
link's `href` (empty when URL parsing failed), `innerText` the link's
display text. -/
def linkFlagged (linkHost innerText : String) (suspDoms : List String) : Bool :=
  let text := jsToLower (jsTrim innerText)
  let hostMismatch := text ≠ "" && jsIncludes text "." && !(jsIncludes text linkHost)
  let domainSuspicious := suspDoms.any (fun dom => jsEndsWith linkHost dom)
  hostMismatch || domainSuspicious

/-! ## Definitions used to state the claims

The `authSpec…` functions below are written from the specification's
words, to be compared against the embedded `authBlock`; the concrete
headers and bodies are the inputs of the concrete theorems. -/

/-- The status string of an optional verdict. -/
def statusOf (v : Option AuthVerdict) : Option String :=
  v.map (fun a => a.status)

/-- One protocol of the claimed authentication scoring: a failure adds the
protocol weight, a pass subtracts the discount with the subtraction
individually clamped so the running total never drops below 0, anything
else leaves the score alone. -/
def specStep (st : Option String) (failW passD : Int) (s : Int) : Int :=
  if st == some "fail" then s + failW
  else if st == some "pass" then max 0 (s - passD)
  else s

/-- Indicator of a failed status, for counting failures. -/
def authFailIndicator (st : Option String) : Nat :=
  if st == some "fail" then 1 else 0

/-- The authentication score delta exactly as the claim states it:
dkim +15 / spf +12 / dmarc +18 on failure, individually clamped
discounts 2 / 2 / 3 on pass, then +10 when at least two of the three
statuses failed and a further +15 when all three failed. -/
def authSpecScore (d p m : Option String) (s0 : Int) : Int :=
  specStep m 18 3 (specStep p 12 2 (specStep d 15 2 s0)) +
    (if 2 ≤ authFailIndicator d + authFailIndicator p + authFailIndicator m
     then 10 else 0) +
    (if 3 ≤ authFailIndicator d + authFailIndicator p + authFailIndicator m
     then 15 else 0)

/-- The per-protocol finding of one verdict. -/
def protoDetail (st : Option String) (n : String) : List String :=
  if st == some "fail" then [n ++ " authentication failed"]
  else if st == some "pass" then [n ++ " authentication passed"]
  else []

/-- The findings the authentication block appends, in the order the code
pushes them: the multiple-failures summary first, then the per-protocol
findings, then the all-failed summary. -/
def authDetailsSpec (d p m : Option String) : List String :=
  (if 2 ≤ authFailIndicator d + authFailIndicator p + authFailIndicator m then
    ["Multiple authentication failures (" ++
     toString (authFailIndicator d + authFailIndicator p + authFailIndicator m) ++ ")"]
   else []) ++
  (protoDetail d "DKIM" ++ protoDetail p "SPF" ++ protoDetail m "DMARC") ++
  (if 3 ≤ authFailIndicator d + authFailIndicator p + authFailIndicator m then
    ["All email authentication methods failed - high phishing risk"]
   else [])

/-- A header with an innocuous sender and no authentication data. -/
def sampleHeader : EmailHeader :=
  { «from» := some "alice@example.com", authentication := none }

/-- All three protocols failed. -/
def allFailAuth : Authentication :=
  { dkim := some { status := "fail" }, spf := some { status := "fail" },
    dmarc := some { status := "fail" } }

/-- A header whose three authentication verdicts are all failures. -/
def allFailHeader : EmailHeader :=
  { «from» := some "alice@example.com", authentication := some allFailAuth }

/-- All three protocols with an unknown verdict. -/
def allUnknownAuth : Authentication :=
  { dkim := some { status := "unknown" }, spf := some { status := "unknown" },
    dmarc := some { status := "unknown" } }

/-- The bare brand-path display text of the deceptive-link scenario. -/
def jobyBody : String := "www.joby.aero/sharepoint/2025NewPolicy"

/-! ## Helper lemmas -/

theorem urgentScore_nonneg (lb : String) : 0 ≤ urgentScore lb := by
  unfold urgentScore
  split_ifs with h
  · exact le_min (by norm_num) (by positivity)
  · exact le_refl 0

theorem keywordSection_nonneg (lb : String) : 0 ≤ (keywordSection lb).1 := by
  have hu := urgentScore_nonneg lb
  unfold keywordSection
  dsimp only
  simp only [apply_ite (Prod.fst : Int × List String → Int)]
  split_ifs <;> omega

theorem linkCountSection_nonneg (b : String) : 0 ≤ (linkCountSection b).1 := by
  unfold linkCountSection
  dsimp only
  simp only [apply_ite (Prod.fst : Int × List String → Int)]
  split_ifs with h
  · omega
  · exact le_refl 0

theorem deceptiveSection_nonneg (b : String) : 0 ≤ (deceptiveSection b).1 := by
  unfold deceptiveSection
  dsimp only
  split_ifs <;> simp [le_min_iff]

theorem greetingSection_nonneg (b : String) : 0 ≤ (greetingSection b).1 := by
  unfold greetingSection
  dsimp only
  split_ifs <;> norm_num

theorem senderSection_nonneg (d : String) : 0 ≤ (senderSection d).1 := by
  unfold senderSection
  dsimp only
  split_ifs <;> simp

theorem mismatchSection_nonneg (f lb : String) : 0 ≤ (mismatchSection f lb).1 := by
  unfold mismatchSection
  dsimp only
  split_ifs <;> simp [le_min_iff]

theorem punctuationSection_nonneg (b : String) : 0 ≤ (punctuationSection b).1 := by
  unfold punctuationSection
  dsimp only
  simp only [apply_ite (Prod.fst : Int × List String → Int)]
  split_ifs <;> norm_num

theorem authStep_score (v : Option AuthVerdict) (fw pd : Int) (n : String)
    (st : Int × Nat × List String) :
    (authStep v fw pd n st).1 = specStep (statusOf v) fw pd st.1 := by
  rcases v with _ | ⟨vs⟩ <;>
    simp only [authStep, specStep, statusOf, Option.map_none', Option.map_some',
      beq_iff_eq, Option.some.injEq, reduceCtorEq] <;>
    split_ifs <;> simp_all

theorem authStep_count (v : Option AuthVerdict) (fw pd : Int) (n : String)
    (st : Int × Nat × List String) :
    (authStep v fw pd n st).2.1 = st.2.1 + authFailIndicator (statusOf v) := by
  rcases v with _ | ⟨vs⟩ <;>
    simp only [authStep, authFailIndicator, statusOf, Option.map_none',
      Option.map_some'] <;>
    split_ifs <;> simp_all

theorem authStep_details (v : Option AuthVerdict) (fw pd : Int) (n : String)
    (st : Int × Nat × List String) :
    (authStep v fw pd n st).2.2 = st.2.2 ++ protoDetail (statusOf v) n := by
  rcases v with _ | ⟨vs⟩ <;>
    simp only [authStep, protoDetail, statusOf, Option.map_none', Option.map_some',
      beq_iff_eq, Option.some.injEq, reduceCtorEq] <;>
    split_ifs <;> simp_all

theorem authFinish_score (st : Int × Nat × List String) :
    (authFinish st).1 =
      st.1 + (if 2 ≤ st.2.1 then 10 else 0) + (if 3 ≤ st.2.1 then 15 else 0) := by
  simp only [authFinish]
  split_ifs <;> omega

theorem authFinish_details (st : Int × Nat × List String) :
    (authFinish st).2 =
      (if 2 ≤ st.2.1 then
        ["Multiple authentication failures (" ++ toString st.2.1 ++ ")"] else []) ++
      st.2.2 ++
      (if 3 ≤ st.2.1 then
        ["All email authentication methods failed - high phishing risk"] else []) := by
  simp only [authFinish]
  have hd : (if st.2.2.length > 0 then st.2.2 else []) = st.2.2 := by
    cases st.2.2 <;> simp
  rw [hd]
  split_ifs <;> simp

theorem authBlock_score_eq (auth : Authentication) (s0 : Int) :
    (authBlock auth s0).1 =
      authSpecScore (statusOf auth.dkim) (statusOf auth.spf) (statusOf auth.dmarc) s0 := by
  have hc3 : (authStep auth.dmarc 18 3 "DMARC"
      (authStep auth.spf 12 2 "SPF" (authStep auth.dkim 15 2 "DKIM" (s0, 0, [])))).2.1 =
      authFailIndicator (statusOf auth.dkim) + authFailIndicator (statusOf auth.spf) +
        authFailIndicator (statusOf auth.dmarc) := by
    rw [authStep_count, authStep_count, authStep_count]
    simp [Nat.add_assoc]
  simp only [authBlock, authFinish_score, hc3, authStep_score, authSpecScore]

theorem authBlock_details_eq (auth : Authentication) (s0 : Int) :
    (authBlock auth s0).2 =
      authDetailsSpec (statusOf auth.dkim) (statusOf auth.spf) (statusOf auth.dmarc) := by
  have hc3 : (authStep auth.dmarc 18 3 "DMARC"
      (authStep auth.spf 12 2 "SPF" (authStep auth.dkim 15 2 "DKIM" (s0, 0, [])))).2.1 =
      authFailIndicator (statusOf auth.dkim) + authFailIndicator (statusOf auth.spf) +
        authFailIndicator (statusOf auth.dmarc) := by
    rw [authStep_count, authStep_count, authStep_count]
    simp [Nat.add_assoc]
  have hdet : (authStep auth.dmarc 18 3 "DMARC"
      (authStep auth.spf 12 2 "SPF" (authStep auth.dkim 15 2 "DKIM" (s0, 0, [])))).2.2 =
      protoDetail (statusOf auth.dkim) "DKIM" ++ protoDetail (statusOf auth.spf) "SPF" ++
        protoDetail (statusOf auth.dmarc) "DMARC" := by
    rw [authStep_details, authStep_details, authStep_details]
    simp
  simp only [authBlock, authFinish_details, hc3, hdet, authDetailsSpec]

theorem authStep_skip (v : Option AuthVerdict) (fw pd : Int) (n : String)
    (st : Int × Nat × List String)
    (h1 : statusOf v ≠ some "fail") (h2 : statusOf v ≠ some "pass") :
    authStep v fw pd n st = st := by
  rcases v with _ | ⟨vs⟩
  · rfl
  · simp only [statusOf, Option.map_some', ne_eq, Option.some.injEq] at h1 h2
    simp [authStep, h1, h2]

theorem specStep_nonneg (st : Option String) (fw pd s : Int)
    (hfw : 0 ≤ fw) (hs : 0 ≤ s) : 0 ≤ specStep st fw pd s := by
  unfold specStep
  split_ifs <;> omega

theorem authBlock_nonneg (auth : Authentication) (s0 : Int) (h : 0 ≤ s0) :
    0 ≤ (authBlock auth s0).1 := by
  rw [authBlock_score_eq]
  have h1 := specStep_nonneg (statusOf auth.dkim) 15 2 s0 (by norm_num) h
  have h2 := specStep_nonneg (statusOf auth.spf) 12 2 _ (by norm_num) h1
  have h3 := specStep_nonneg (statusOf auth.dmarc) 18 3 _ (by norm_num) h2
  unfold authSpecScore
  split_ifs <;> omega

theorem isPre_refl (l : List Char) : isPre l l = true := by
  induction l with
  | nil => rfl
  | cons c t ih => simp [isPre, ih]

theorem filter_length_mono {α : Type} (l : List α) (p q : α → Bool)
    (h : ∀ x ∈ l, p x = true → q x = true) :
    (l.filter p).length ≤ (l.filter q).length := by
  induction l with
  | nil => simp
  | cons a t ih =>
    have ht : ∀ x ∈ t, p x = true → q x = true :=
      fun x hx => h x (List.mem_cons_of_mem a hx)
    cases hp : p a <;> cases hq : q a <;>
      simp_all [List.filter_cons, hp, hq]
    all_goals omega

/-! ## The claims -/

/-- C1: for every body string and header, when `computeHeuristics` returns
a result its (integer) score lies in the interval [0, 70]: every detector
delta is non-negative, each authentication pass-discount clamps at 0, and
the final total is capped at 70. -/
theorem c1_score_in_range (body : String) (header : EmailHeader)
    (r : HeuristicResult) (h : computeHeuristics body header = some r) :
    0 ≤ r.score ∧ r.score ≤ 70 := by
  unfold computeHeuristics at h
  cases hf : header.«from» with
  | none => rw [hf] at h; exact absurd h (by simp)
  | some fromS =>
    rw [hf] at h
    dsimp only at h
    have hpre : 0 ≤ (keywordSection (jsToLower body)).1 + (linkCountSection body).1 +
        (deceptiveSection body).1 + (greetingSection body).1 +
        (senderSection (senderDomainOf fromS)).1 +
        (mismatchSection fromS (jsToLower body)).1 + (punctuationSection body).1 := by
      have h1 := keywordSection_nonneg (jsToLower body)
      have h2 := linkCountSection_nonneg body
      have h3 := deceptiveSection_nonneg body
      have h4 := greetingSection_nonneg body
      have h5 := senderSection_nonneg (senderDomainOf fromS)
      have h6 := mismatchSection_nonneg fromS (jsToLower body)
      have h7 := punctuationSection_nonneg body
      omega
    cases ha : header.authentication with
    | none =>
      rw [ha] at h
      dsimp only at h
      obtain rfl := (Option.some.inj h).symm
      exact ⟨le_min (by norm_num) hpre, min_le_left _ _⟩
    | some auth =>
      rw [ha] at h
      dsimp only at h
      obtain rfl := (Option.some.inj h).symm
      exact ⟨le_min (by norm_num) (authBlock_nonneg auth _ hpre), min_le_left _ _⟩

/-- Witness for C1 at a concrete input. -/
theorem c1_score_in_range_witness :
    0 ≤ ({ score := 0, details := [], suspiciousElements := [] } : HeuristicResult).score ∧
    ({ score := 0, details := [], suspiciousElements := [] } : HeuristicResult).score ≤ 70 :=
  c1_score_in_range "" sampleHeader
    { score := 0, details := [], suspiciousElements := [] } (by decide)

/-- C2 (code bug): a header with no `from` field makes `computeHeuristics`
throw (the embedding returns `none`, modelling the `TypeError` raised by
`header.from.split('@')` at line 928) instead of degrading to a result
with no sender-domain signal, contradicting the spec's fail-soft
requirement; the caller really can produce such a header, since it only
sets `header.from` when a sender element is found. -/
theorem c2_missing_from_throws :
    computeHeuristics "Urgent: verify your account"
      { «from» := none, authentication := none } = none := by decide

/-- C3 counterexample: an infinite remote score is a number and is not
NaN, so it passes the guard and the blend returns infinity, not the
heuristic value — the claim fails for non-finite numeric inputs. -/
theorem c3_infinity_changes_result :
    combineScores (.fin 50) (.num .posInf) = .posInf ∧
    combineScores (.fin 50) (.num .posInf) ≠ .fin 50 := by
  have h : combineScores (.fin 50) (.num .posInf) = .posInf := by
    norm_num [combineScores, jsMul, jsAdd, jsRound]
    intro hc
    cases hc
  refine ⟨h, ?_⟩
  rw [h]
  intro hc
  cases hc

/-- C3 as amended: `combineScores` returns the heuristic value unchanged
when the remote score is NaN or not a number; a remote score of positive
or negative infinity instead passes the guard and makes the result the
corresponding infinity. -/
theorem c3_nan_and_nonnumber_fallback (h : JSNum) (q : ℚ) :
    combineScores h (.num .nan) = h ∧ combineScores h .nonNumber = h ∧
    combineScores (.fin q) (.num .posInf) = .posInf ∧
    combineScores (.fin q) (.num .negInf) = .negInf := by
  refine ⟨by simp [combineScores], rfl, ?_, ?_⟩ <;>
  · norm_num [combineScores, jsMul, jsAdd, jsRound]
    intro hc
    cases hc

/-- C4: for finite scores h, r in [0, 100], `combineScores` equals the
half-up rounding of 0.4·h + 0.6·r, and that value lies in [0, 100] with
no re-clamping. -/
theorem c4_blend_formula_in_range (h r : ℚ) (hh0 : 0 ≤ h) (hh1 : h ≤ 100)
    (hr0 : 0 ≤ r) (hr1 : r ≤ 100) :
    combineScores (.fin h) (.num (.fin r)) =
      .fin ((⌊h * 0.4 + r * 0.6 + 1/2⌋ : ℤ) : ℚ) ∧
    (0 : ℤ) ≤ ⌊h * 0.4 + r * 0.6 + 1/2⌋ ∧ ⌊h * 0.4 + r * 0.6 + 1/2⌋ ≤ 100 := by
  refine ⟨?_, ?_, ?_⟩
  · norm_num [combineScores, jsMul, jsAdd, jsRound]
    intro hc
    cases hc
  · apply Int.le_floor.mpr
    push_cast
    nlinarith
  · have hlt : ⌊h * 0.4 + r * 0.6 + 1/2⌋ < 101 := by
      apply Int.floor_lt.mpr
      push_cast
      nlinarith
    omega

/-- Witness for C4 at h = 50, r = 100. -/
theorem c4_blend_formula_in_range_witness :
    combineScores (.fin 50) (.num (.fin 100)) =
      .fin ((⌊(50 : ℚ) * 0.4 + (100 : ℚ) * 0.6 + 1/2⌋ : ℤ) : ℚ) ∧
    (0 : ℤ) ≤ ⌊(50 : ℚ) * 0.4 + (100 : ℚ) * 0.6 + 1/2⌋ ∧
    ⌊(50 : ℚ) * 0.4 + (100 : ℚ) * 0.6 + 1/2⌋ ≤ 100 :=
  c4_blend_formula_in_range 50 100 (by norm_num) (by norm_num) (by norm_num) (by norm_num)

/-- C5: for every authentication object and every incoming score, the
score after the authentication block is exactly the claimed arithmetic:
+15/+12/+18 per failed protocol, an individually-clamped −2/−2/−3 per
passed protocol (the running total never dropping below 0 at a discount),
then +10 when at least two protocols failed and a further +15 when all
three failed. -/
theorem c5_auth_score_weights (auth : Authentication) (s0 : Int) :
    (authBlock auth s0).1 =
      authSpecScore (statusOf auth.dkim) (statusOf auth.spf) (statusOf auth.dmarc) s0 :=
  authBlock_score_eq auth s0

/-- C6 counterexample: with all three protocols failed, the findings list
of `computeHeuristics` puts the summary finding `Multiple authentication
failures (3)` first — before the per-protocol findings — contradicting
the claimed within-group order. -/
theorem c6_order_counterexample :
    (computeHeuristics "" allFailHeader).map (fun r => r.details) =
      some ["Multiple authentication failures (3)",
            "DKIM authentication failed", "SPF authentication failed",
            "DMARC authentication failed",
            "All email authentication methods failed - high phishing risk"] ∧
    (computeHeuristics "" allFailHeader).map (fun r => r.details.headI) =
      some "Multiple authentication failures (3)" := by decide

/-- C6 as amended: the findings are ordered by detector evaluation
(keyword categories, combination bonuses, link count, deceptive links,
greeting, sender domain, domain mismatch, punctuation/shouting,
authentication), and within the authentication group the `Multiple
authentication failures (N)` summary comes first, then the per-protocol
findings, then the all-failed summary. -/
theorem c6_details_order_amended (body fromS : String) (auth : Authentication)
    (r : HeuristicResult)
    (h : computeHeuristics body { «from» := some fromS, authentication := some auth } =
      some r) :
    r.details =
      (keywordSection (jsToLower body)).2 ++ (linkCountSection body).2 ++
      (deceptiveSection body).2.1 ++ (greetingSection body).2 ++
      (senderSection (senderDomainOf fromS)).2 ++
      (mismatchSection fromS (jsToLower body)).2.1 ++ (punctuationSection body).2 ++
      authDetailsSpec (statusOf auth.dkim) (statusOf auth.spf) (statusOf auth.dmarc) := by
  unfold computeHeuristics at h
  dsimp only at h
  obtain rfl := (Option.some.inj h).symm
  dsimp only
  rw [authBlock_details_eq]

/-- Witness for the amended C6 at a concrete input. -/
theorem c6_details_order_amended_witness :
    ({ score := 70,
       details := ["Multiple authentication failures (3)",
         "DKIM authentication failed", "SPF authentication failed",
         "DMARC authentication failed",
         "All email authentication methods failed - high phishing risk"],
       suspiciousElements := [] } : HeuristicResult).details =
      (keywordSection (jsToLower "")).2 ++ (linkCountSection "").2 ++
      (deceptiveSection "").2.1 ++ (greetingSection "").2 ++
      (senderSection (senderDomainOf "alice@example.com")).2 ++
      (mismatchSection "alice@example.com" (jsToLower "")).2.1 ++
      (punctuationSection "").2 ++
      authDetailsSpec (statusOf allFailAuth.dkim) (statusOf allFailAuth.spf)
        (statusOf allFailAuth.dmarc) :=
  c6_details_order_amended "" "alice@example.com" allFailAuth
    { score := 70,
      details := ["Multiple authentication failures (3)",
        "DKIM authentication failed", "SPF authentication failed",
        "DMARC authentication failed",
        "All email authentication methods failed - high phishing risk"],
      suspiciousElements := [] } (by decide)

set_option maxRecDepth 8000 in
/-- C7: a body consisting of the bare display text
`www.joby.aero/sharepoint/2025NewPolicy` (no href, no URL) makes the
deceptive-link detector fire: the score (25) is strictly greater than for
the same header with the token removed (0), and the suspicious elements
contain the sentinel string. -/
theorem c7_deceptive_brand_path_fires :
    (computeHeuristics jobyBody sampleHeader).map (fun r => r.score) = some 25 ∧
    (computeHeuristics "" sampleHeader).map (fun r => r.score) = some 0 ∧
    (computeHeuristics jobyBody sampleHeader).map
      (fun r => r.suspiciousElements.contains "potentially deceptive link pattern") =
      some true ∧
    (0 : Int) < 25 := by decide

/-- C8: in the link-flag decision of `highlightSuspiciousLinks`, a link
whose parsed lowercase host equals an entry of the suspicious-domain list
is flagged, and a link whose host suffix-matches no entry and whose
display text contains the host is not flagged. -/
theorem c8_link_flag_roundtrip (host text : String) (doms : List String) :
    (host ∈ doms → linkFlagged host text doms = true) ∧
    ((∀ d ∈ doms, jsEndsWith host d = false) →
      jsIncludes (jsToLower (jsTrim text)) host = true →
      linkFlagged host text doms = false) := by
  constructor
  · intro hmem
    have hend : jsEndsWith host host = true := isPre_refl _
    have hany : doms.any (fun dom => jsEndsWith host dom) = true :=
      List.any_eq_true.mpr ⟨host, hmem, hend⟩
    simp [linkFlagged, hany]
  · intro hsuf hincl
    have hany : doms.any (fun dom => jsEndsWith host dom) = false := by
      simp only [List.any_eq_false]
      intro d hd
      simp [hsuf d hd]
    simp [linkFlagged, hany, hincl]

/-- Witness for C8: a flagged exact-match link and an unflagged honest link. -/
theorem c8_link_flag_roundtrip_witness :
    linkFlagged "evil.com" "x" ["evil.com"] = true ∧
    linkFlagged "good.org" "see good.org here" ["evil.com"] = false :=
  ⟨(c8_link_flag_roundtrip "evil.com" "x" ["evil.com"]).1 (by decide),
   (c8_link_flag_roundtrip "good.org" "see good.org here" ["evil.com"]).2
     (by decide) (by decide)⟩

/-- C9 counterexample: inserting the urgent keyword `urgent` into
`dear customer` (which contains zero urgent keywords) lowers the total
score from 10 to 8 — the insertion breaks the generic-greeting match
(−10) while adding only the urgent-category contribution (+8). -/
theorem c9_insertion_decreases_total :
    "dear customer, urgent" = "dear customer" ++ ", urgent" ∧
    urgentHitsOf (jsToLower "dear customer") = 0 ∧
    "urgent" ∈ urgentKeywords ∧
    jsIncludes (jsToLower "dear customer, urgent") "urgent" = true ∧
    (computeHeuristics "dear customer" sampleHeader).map (fun r => r.score) = some 10 ∧
    (computeHeuristics "dear customer, urgent" sampleHeader).map (fun r => r.score) =
      some 8 ∧
    (8 : Int) < 10 := by decide

/-- C9 as amended: making more urgent keywords match (in particular,
inserting an occurrence of a listed urgent keyword into a body with zero
occurrences) never decreases the urgent-keyword category contribution of
`computeHeuristics`; the total score can still decrease, because the
insertion can simultaneously disable other detectors. -/
theorem c9_urgent_category_monotone (lb lb' : String)
    (h : ∀ kw ∈ urgentKeywords, jsIncludes lb kw = true → jsIncludes lb' kw = true) :
    urgentScore lb ≤ urgentScore lb' := by
  have hm : urgentHitsOf lb ≤ urgentHitsOf lb' := by
    unfold urgentHitsOf
    exact filter_length_mono urgentKeywords _ _ h
  unfold urgentScore
  split_ifs <;> omega

/-- Witness for the amended C9. -/
theorem c9_urgent_category_monotone_witness :
    urgentScore "" ≤ urgentScore "urgent" :=
  c9_urgent_category_monotone "" "urgent" (by decide)

/-- C10: when authentication data is present but no protocol's status is
`fail` or `pass`, the authentication block leaves the score unchanged and
appends no findings, and `computeHeuristics` returns exactly what it
returns with no authentication data at all. -/
theorem c10_neutral_auth_noop (auth : Authentication) (s0 : Int) (body fromS : String)
    (hd1 : statusOf auth.dkim ≠ some "fail") (hd2 : statusOf auth.dkim ≠ some "pass")
    (hp1 : statusOf auth.spf ≠ some "fail") (hp2 : statusOf auth.spf ≠ some "pass")
    (hm1 : statusOf auth.dmarc ≠ some "fail") (hm2 : statusOf auth.dmarc ≠ some "pass") :
    authBlock auth s0 = (s0, []) ∧
    computeHeuristics body { «from» := some fromS, authentication := some auth } =
      computeHeuristics body { «from» := some fromS, authentication := none } := by
  have hb : ∀ t : Int, authBlock auth t = (t, []) := by
    intro t
    rw [authBlock, authStep_skip _ _ _ _ _ hd1 hd2, authStep_skip _ _ _ _ _ hp1 hp2,
      authStep_skip _ _ _ _ _ hm1 hm2]
    simp [authFinish]
  refine ⟨hb s0, ?_⟩
  simp only [computeHeuristics, hb]

/-- Witness for C10 with all statuses `unknown`. -/
theorem c10_neutral_auth_noop_witness :
    authBlock allUnknownAuth 42 = (42, []) ∧
    computeHeuristics ""
      { «from» := some "alice@example.com", authentication := some allUnknownAuth } =
      computeHeuristics "" { «from» := some "alice@example.com", authentication := none } :=
  c10_neutral_auth_noop allUnknownAuth 42 "" "alice@example.com"
    (by decide) (by decide) (by decide) (by decide) (by decide) (by decide)

end AiPhishing
